import Mathlib

/-!
Shallow embedding of the PowerWash Simulator cheat-menu trainer
(`consts.py`, `game_config.py`, `utility.py`, `main.py`).

Python dictionaries are modelled as insertion-ordered association lists,
exceptions as `Except` / `Option` results, logging and callback calls as
explicit event traces, and the interactive menu loop as a function over the
list of input lines.  Machine integers do not occur: Python integers are
unbounded, so `Nat` is used directly.
-/

set_option autoImplicit false

namespace PWS2

/-- Helper producing the apostrophe character used inside several of the
source error messages. -/
def apos : String := String.singleton (Char.ofNat 39)

/-- Lookup in an insertion-ordered association list; models `dict.get` /
`dict[k]` key search of a Python `dict` (first — and only — binding of a
key wins, as keys are unique). -/
def lookupKey {β : Type} : List (String × β) → String → Option β
  | [], _ => none
  | (k, v) :: rest, key => if k = key then some v else lookupKey rest key

/-- Replace the value bound to `key`, keeping the position of the binding;
models assignment `d[k] = v` for a key already present in a Python `dict`
(and in-place mutation of the stored object). -/
def updateKey {β : Type} : List (String × β) → String → β → List (String × β)
  | [], _, _ => []
  | (k, u) :: rest, key, v =>
    (if k = key then (key, v) else (k, u)) :: updateKey rest key v

/-- Assignment `d[k] = v` on a Python `dict`: replaces in place when the key
exists, otherwise appends at the end (insertion order preserved). -/
def setKey {β : Type} (l : List (String × β)) (key : String) (v : β) : List (String × β) :=
  if (lookupKey l key).isSome then updateKey l key v else l ++ [(key, v)]

/-- ASCII model of Python `str.lower()`. -/
def pyLower (s : String) : String := String.mk (s.data.map Char.toLower)

/-- ASCII model of Python `str.strip()`: drop leading and trailing
whitespace. -/
def pyStrip (s : String) : String :=
  String.mk (((s.data.dropWhile Char.isWhitespace).reverse.dropWhile Char.isWhitespace).reverse)

/-- Python `sep.join(parts)`. -/
def joinSep (sep : String) : List String → String
  | [] => ""
  | [x] => x
  | x :: y :: xs => x ++ sep ++ joinSep sep (y :: xs)

/-- Upper-case hexadecimal digit character for `n < 16`, as produced by
Python format code `X`. -/
def hexDigitUpper (n : Nat) : Char :=
  if n < 10 then Char.ofNat (48 + n) else Char.ofNat (55 + n)

/-- Fuel-driven worker for `hexChars`; `fuel > n` always suffices because
the argument is divided by 16 at each step. -/
def hexCharsF : Nat → Nat → List Char
  | 0, _ => []
  | fuel + 1, n =>
    if n < 16 then [hexDigitUpper n]
    else hexCharsF fuel (n / 16) ++ [hexDigitUpper (n % 16)]

/-- Upper-case hexadecimal digit list of a natural number, most significant
digit first (`[hexDigitUpper 0]` for `0`). -/
def hexChars (n : Nat) : List Char := hexCharsF (n + 1) n

/-- Upper-case hexadecimal rendering of a natural number (no prefix). -/
def hexStr (n : Nat) : String := String.mk (hexChars n)

/-- Zero-pad a string on the left to width 8; together with `hexStr` this
models Python format spec `08X`. -/
def pad8 (s : String) : String :=
  String.mk (List.replicate (8 - s.length) (Char.ofNat 48)) ++ s

/-- Python f-string piece `f"0x{n:08X}"`. -/
def hex08 (n : Nat) : String := "0x" ++ pad8 (hexStr n)

/-- Character class of the output of `hexDigitUpper`: a decimal digit or an
upper-case letter `A`–`F`. -/
def isHexDigitUpper (c : Char) : Bool :=
  c.isDigit || (Char.ofNat 65 ≤ c && c ≤ Char.ofNat 70)

/-! ### game_config.py -/

/-- `MemoryAddress` from `game_config.py`: a static base address plus
optional pointer offsets. -/
structure MemoryAddress where
  base : Nat
  offsets : List Nat := []
  deriving DecidableEq, Repr

/-- `MemoryAddress.describe` from `game_config.py`:
`" -> ".join(f"0x{offset:08X}" ...)` for the offsets, then the base in the
same format, with the joined offsets appended iff the joined string is
non-empty (Python string truthiness). -/
def MemoryAddress.describe (a : MemoryAddress) : String :=
  let formatted_offsets := joinSep " -> " (a.offsets.map hex08)
  hex08 a.base ++ (if formatted_offsets = "" then "" else " -> " ++ formatted_offsets)

/-- `GameConfig` from `game_config.py`. -/
structure GameConfig where
  name : String
  process_name : String
  description : String
  base_addresses : List (String × MemoryAddress)
  function_hooks : List (String × MemoryAddress)
  notes : Option String := none
  deriving DecidableEq, Repr

/-- `PWS_V1_CONFIG` from `game_config.py` (all addresses are literal zero
placeholders in the source). -/
def PWS_V1_CONFIG : GameConfig where
  name := "PowerWash Simulator"
  process_name := "PowerWashSimulator.exe"
  description := "Original release of PowerWash Simulator on Windows"
  base_addresses :=
    [("currency", { base := 0 }),
     ("soap", { base := 0 }),
     ("dirt_level", { base := 0 }),
     ("flight", { base := 0 })]
  function_hooks :=
    [("instant_clean", { base := 0 }),
     ("dirt_esp", { base := 0 })]
  notes := some ("Placeholder values copied from the legacy trainer. Replace with the\n" ++
    " actual addresses when porting the old functionality.")

/-- `PWS_V2_CONFIG` from `game_config.py`. -/
def PWS_V2_CONFIG : GameConfig where
  name := "PowerWash Simulator 2"
  process_name := "PowerWashSimulator2.exe"
  description := "Sequel release. All offsets below must be verified."
  base_addresses :=
    [("currency", { base := 0 }),
     ("soap", { base := 0 }),
     ("dirt_level", { base := 0 }),
     ("flight", { base := 0 })]
  function_hooks :=
    [("instant_clean", { base := 0 }),
     ("dirt_esp", { base := 0 })]
  notes := some ("All addresses are placeholders. Replace them after scanning the sequel" ++
    apos ++ "s\n memory. Use MemoryAddress.describe() to log chains during development.")

/-- `SUPPORTED_GAMES` from `game_config.py`. -/
def SUPPORTED_GAMES : List (String × GameConfig) :=
  [("v1", PWS_V1_CONFIG), ("v2", PWS_V2_CONFIG)]

/-- `get_game_config` from `game_config.py`: lower-case the requested
version, look it up in `SUPPORTED_GAMES`, and on a miss raise `KeyError`
(modelled as `Except.error`) with a message naming the original input. -/
def get_game_config (version : String) : Except String GameConfig :=
  let normalized := pyLower version
  match lookupKey SUPPORTED_GAMES normalized with
  | some config => .ok config
  | none => .error ("Unsupported game version " ++ apos ++ version ++ apos ++ ".")

/-! ### utility.py -/

/-- A raised Python exception, recorded as the exception class name (`kind`)
plus the message it was constructed with.  `utility.py` defines exactly one
exception class, `ProcessNotFoundError`. -/
structure PyError where
  kind : String
  msg : String
  deriving DecidableEq, Repr

/-- `AttachedProcess` from `utility.py`: a handle to the running game
process.  The opaque `handle` attribute is always `None` in the source. -/
structure AttachedProcess where
  name : String
  pid : Nat
  handle : Option Unit := none
  deriving DecidableEq, Repr

/-- Message raised by `find_process_by_name` when the optional `psutil`
dependency is not importable. -/
def psutilMissingMsg : String :=
  "psutil is not installed. Install it with " ++ apos ++ "pip install psutil" ++ apos ++
    " before attempting to attach to the game process."

/-- Message raised by `find_process_by_name` when no running process
matches the requested name. -/
def processMissingMsg (process_name : String) : String :=
  "Could not locate running process " ++ apos ++ process_name ++ apos ++
    ". Make sure the game is running before enabling cheats."

/-- `find_process_by_name` from `utility.py`.  The environment is made
explicit: `psutilAvailable` is whether `import psutil` succeeded, and
`running` is the `(pid, name)` list that `psutil.process_iter` would yield.
Both failure branches raise the same exception class
`ProcessNotFoundError`, differing only in message. -/
def find_process_by_name (psutilAvailable : Bool) (running : List (Nat × String))
    (process_name : String) : Except PyError (Nat × String) :=
  if psutilAvailable = false then
    .error { kind := "ProcessNotFoundError", msg := psutilMissingMsg }
  else
    match running.find? (fun p => p.2 = process_name) with
    | some p => .ok p
    | none => .error { kind := "ProcessNotFoundError", msg := processMissingMsg process_name }

/-- `attach_to_process` from `utility.py`: locate the process named by the
config and wrap it in an `AttachedProcess` with `handle = None`. -/
def attach_to_process (psutilAvailable : Bool) (running : List (Nat × String))
    (config : GameConfig) : Except PyError AttachedProcess :=
  (find_process_by_name psutilAvailable running config.process_name).map fun p =>
    { name := config.process_name, pid := p.1, handle := none }

/-- Exception class name of a raised error, `none` for a normal return. -/
def exceptKind {β : Type} : Except PyError β → Option String
  | .error e => some e.kind
  | .ok _ => none

/-- `log_address_chain` from `utility.py`, as the debug line it logs. -/
def log_address_chain (label : String) (address : MemoryAddress) : String :=
  label ++ " address chain: " ++ address.describe

/-! ### consts.py -/

/-- `CHEAT_NAMES` from `consts.py`. -/
def CHEAT_NAMES : List (String × String) :=
  [("soap", "Infinite Soap"),
   ("instant_clean", "Instant Clean"),
   ("flight", "Flight"),
   ("dirt_esp", "Dirt ESP")]

/-- ASCII model of Python `str.title()`: upper-case a letter that follows a
non-letter, lower-case a letter that follows a letter. -/
def pyTitleGo : Bool → List Char → List Char
  | _, [] => []
  | prevAlpha, c :: cs =>
    (if c.isAlpha then (if prevAlpha then c.toLower else c.toUpper) else c)
      :: pyTitleGo c.isAlpha cs

/-- Python `identifier.title()`. -/
def pyTitle (s : String) : String := String.mk (pyTitleGo false s.data)

/-! ### main.py — feature registry and toggle state machine -/

/-- Observable effects of one `CheatManager.toggle` call: the
`logger.info` line of `CheatFeature.toggle`, the invocation of the bound
callback with its arguments, and the `logger.error` report for an unknown
identifier. -/
inductive ToggleEvent (α : Type) where
  | logInfo (label : String) (stateOn : Bool)
  | invoke (callback : α) (process : AttachedProcess) (config : GameConfig) (enabled : Bool)
  | logError (msg : String)
  deriving DecidableEq, Repr

/-- Callback invocations recorded in an event trace, in order, with their
arguments. -/
def invocationsOf {α : Type} (evs : List (ToggleEvent α)) :
    List (α × AttachedProcess × GameConfig × Bool) :=
  evs.filterMap fun e =>
    match e with
    | .invoke cb p c b => some (cb, p, c, b)
    | _ => none

/-- Error reports recorded in an event trace. -/
def errorsOf {α : Type} (evs : List (ToggleEvent α)) : List String :=
  evs.filterMap fun e =>
    match e with
    | .logError m => some m
    | _ => none

/-- `CheatFeature` from `main.py`.  The bound callback is represented by a
value of type `α` (for the built registry, a `CallbackId` naming one of the
four callback functions of `main.py`). -/
structure CheatFeature (α : Type) where
  identifier : String
  label : String
  callback : α
  enabled : Bool := false
  deriving DecidableEq, Repr

/-- `CheatFeature.toggle` from `main.py`: flip `enabled`, log the new
state, then invoke the bound callback once with
`(process, config, self.enabled)`.  The two effects are returned as an
ordered event trace. -/
def CheatFeature.toggle {α : Type} (f : CheatFeature α) (process : AttachedProcess)
    (config : GameConfig) : CheatFeature α × List (ToggleEvent α) :=
  let f₁ := { f with enabled := !f.enabled }
  (f₁, [.logInfo f.label f₁.enabled, .invoke f.callback process config f₁.enabled])

/-- `CheatFeature.toggle` from `main.py` under a callback that may raise:
`interp` runs the bound callback on the new state and either returns
normally or raises `ε`.  Mirroring the source order, `enabled` is assigned
before the callback is called, so a raised exception propagates with the
flip already applied. -/
def CheatFeature.toggleRun {α ε : Type} (f : CheatFeature α)
    (interp : α → Bool → Except ε Unit) : CheatFeature α × Option ε :=
  match interp f.callback (!f.enabled) with
  | .ok _ => ({ f with enabled := !f.enabled }, none)
  | .error e => ({ f with enabled := !f.enabled }, some e)

/-- `CheatManager` from `main.py`. -/
structure CheatManager (α : Type) where
  process : AttachedProcess
  config : GameConfig
  features : List (String × CheatFeature α)
  deriving DecidableEq, Repr

/-- `CheatManager.register` from `main.py`: label from `CHEAT_NAMES` with
`identifier.title()` fallback, new feature stored with `enabled = False`. -/
def CheatManager.register {α : Type} (m : CheatManager α) (identifier : String)
    (callback : α) : CheatManager α :=
  let label := (lookupKey CHEAT_NAMES identifier).getD (pyTitle identifier)
  let feature : CheatFeature α :=
    { identifier := identifier, label := label, callback := callback, enabled := false }
  { m with features := setKey m.features identifier feature }

/-- `CheatManager.toggle` from `main.py`: unknown identifiers log exactly
one error and change nothing; otherwise the found feature is toggled with
the registry process handle and active config. -/
def CheatManager.toggle {α : Type} (m : CheatManager α) (identifier : String) :
    CheatManager α × List (ToggleEvent α) :=
  match lookupKey m.features identifier with
  | none => (m, [.logError ("Unknown cheat " ++ apos ++ identifier ++ apos)])
  | some feature =>
    let r := feature.toggle m.process m.config
    ({ m with features := updateKey m.features identifier r.1 }, r.2)

/-! ### main.py — cheat callback implementations

Each callback resolves an address from the active config by key (a missing
key is a `KeyError`, modelled as `none`) and logs two lines; the returned
value is the list of logged lines. -/

/-- Python `str(bool)`. -/
def pyStrBool (b : Bool) : String := if b then "True" else "False"

/-- `toggle_infinite_soap` from `main.py`. -/
def toggle_infinite_soap (process : AttachedProcess) (config : GameConfig)
    (enabled : Bool) : Option (List String) :=
  (lookupKey config.base_addresses "soap").map fun address =>
    [log_address_chain "soap" address,
     "(Infinite Soap) Would " ++ (if enabled then "freeze" else "release") ++
       " memory at " ++ address.describe ++ " for process " ++ toString process.pid]

/-- `toggle_instant_clean` from `main.py`. -/
def toggle_instant_clean (process : AttachedProcess) (config : GameConfig)
    (enabled : Bool) : Option (List String) :=
  (lookupKey config.function_hooks "instant_clean").map fun hook =>
    [log_address_chain "instant_clean" hook,
     "(Instant Clean) Would " ++ (if enabled then "install" else "remove") ++
       " hook at " ++ hook.describe ++ " for process " ++ toString process.pid]

/-- `toggle_flight` from `main.py`. -/
def toggle_flight (process : AttachedProcess) (config : GameConfig)
    (enabled : Bool) : Option (List String) :=
  (lookupKey config.base_addresses "flight").map fun address =>
    [log_address_chain "flight" address,
     "(Flight) Would set flight flag to " ++ pyStrBool enabled ++
       " at " ++ address.describe ++ " for process " ++ toString process.pid]

/-- `toggle_dirt_esp` from `main.py`. -/
def toggle_dirt_esp (process : AttachedProcess) (config : GameConfig)
    (enabled : Bool) : Option (List String) :=
  (lookupKey config.function_hooks "dirt_esp").map fun hook =>
    [log_address_chain "dirt_esp" hook,
     "(Dirt ESP) Would " ++ (if enabled then "enable" else "disable") ++
       " visualization hook at " ++ hook.describe ++ " for process " ++ toString process.pid]

/-- Names of the four callback functions of `main.py` that `build_manager`
binds to features. -/
inductive CallbackId where
  | soap
  | instantClean
  | flight
  | dirtEsp
  deriving DecidableEq, Repr

/-- The callback function each `CallbackId` names. -/
def callbackImpl : CallbackId → AttachedProcess → GameConfig → Bool → Option (List String)
  | .soap => toggle_infinite_soap
  | .instantClean => toggle_instant_clean
  | .flight => toggle_flight
  | .dirtEsp => toggle_dirt_esp

/-! ### main.py — CLI glue -/

/-- The `choices` given to argparse for `--game-version`:
`sorted(SUPPORTED_GAMES.keys())`. -/
def argparseChoices : List String := ["v1", "v2"]

/-- `parse_args` from `main.py`, restricted to the `--game-version` value.
argparse validates it against `choices`; an invalid value makes argparse
print a usage error and exit the process with status 2, modelled here as
`none`. -/
def parse_args (gameVersion : String) : Option String :=
  if gameVersion ∈ argparseChoices then some gameVersion else none

/-- Registration phase of `build_manager` from `main.py`, after the
process has been attached: register the four features in source order. -/
def buildManagerFrom (process : AttachedProcess) (config : GameConfig) :
    CheatManager CallbackId :=
  let manager : CheatManager CallbackId := { process := process, config := config, features := [] }
  let manager := manager.register "soap" .soap
  let manager := manager.register "instant_clean" .instantClean
  let manager := manager.register "flight" .flight
  let manager := manager.register "dirt_esp" .dirtEsp
  manager

/-- `build_manager` from `main.py`: attach to the process described by the
config, then register the four cheat features. -/
def build_manager (psutilAvailable : Bool) (running : List (Nat × String))
    (config : GameConfig) : Except PyError (CheatManager CallbackId) :=
  (attach_to_process psutilAvailable running config).map fun process =>
    buildManagerFrom process config

/-- `run_menu` from `main.py` over the list of lines the user will type:
each line is trimmed and lower-cased, `q` leaves the loop, `1`–`4` toggle
the corresponding feature, anything else reprints the menu.  Exhausting the
input without `q` means `input()` raises `EOFError` (an unhandled crash),
modelled as `none`. -/
def run_menu (m : CheatManager CallbackId) : List String → Option (CheatManager CallbackId)
  | [] => none
  | line :: rest =>
    let choice := pyLower (pyStrip line)
    if choice = "q" then some m
    else if choice = "1" then run_menu ((m.toggle "soap").1) rest
    else if choice = "2" then run_menu ((m.toggle "instant_clean").1) rest
    else if choice = "3" then run_menu ((m.toggle "flight").1) rest
    else if choice = "4" then run_menu ((m.toggle "dirt_esp").1) rest
    else run_menu m rest

/-- `main` from `main.py`, with the environment explicit (psutil presence,
running process table, user input lines).  The result is the process exit
status: argparse rejection exits with 2, an unsupported version surviving
to `get_game_config` or an attach failure returns 1, a normal quit returns
0, and `none` is an unhandled crash (input exhausted without `q`). -/
def main (gameVersionArg : String) (psutilAvailable : Bool)
    (running : List (Nat × String)) (inputs : List String) : Option Nat :=
  match parse_args gameVersionArg with
  | none => some 2
  | some game_version =>
    match get_game_config game_version with
    | .error _ => some 1
    | .ok config =>
      match build_manager psutilAvailable running config with
      | .error _ => some 1
      | .ok manager =>
        match run_menu manager inputs with
        | none => none
        | some _ => some 0

/-- Concrete attached process used to instantiate general theorems. -/
def sampleProcess : AttachedProcess := { name := "PowerWashSimulator.exe", pid := 1234 }

/-- Concrete registry as built by `build_manager` for the v1 profile. -/
def sampleManager : CheatManager CallbackId := buildManagerFrom sampleProcess PWS_V1_CONFIG

/-! ## Lemmas about the association-list model -/

theorem lookupKey_updateKey_self {β : Type} (l : List (String × β)) (key : String)
    (v w : β) (h : lookupKey l key = some v) :
    lookupKey (updateKey l key w) key = some w := by
  induction l with
  | nil => simp [lookupKey] at h
  | cons p rest ih =>
    obtain ⟨k, u⟩ := p
    by_cases hp : k = key
    · subst hp
      show lookupKey ((if k = k then (k, w) else (k, u)) :: updateKey rest k w) k = some w
      rw [if_pos rfl]
      show (if k = k then some w else lookupKey (updateKey rest k w) k) = some w
      rw [if_pos rfl]
    · have h₀ : lookupKey rest key = some v := by
        have hh : lookupKey ((k, u) :: rest) key =
            if k = key then some u else lookupKey rest key := rfl
        rw [hh, if_neg hp] at h
        exact h
      show lookupKey ((if k = key then (key, w) else (k, u)) :: updateKey rest key w) key =
        some w
      rw [if_neg hp]
      show (if k = key then some u else lookupKey (updateKey rest key w) key) = some w
      rw [if_neg hp]
      exact ih h₀

theorem lookupKey_updateKey_other {β : Type} (l : List (String × β)) (key other : String)
    (w : β) (hne : other ≠ key) :
    lookupKey (updateKey l key w) other = lookupKey l other := by
  induction l with
  | nil => rfl
  | cons p rest ih =>
    obtain ⟨k, u⟩ := p
    by_cases hp : k = key
    · subst hp
      show lookupKey ((if k = k then (k, w) else (k, u)) :: updateKey rest k w) other =
        lookupKey ((k, u) :: rest) other
      rw [if_pos rfl]
      show (if k = other then some w else lookupKey (updateKey rest k w) other) =
        if k = other then some u else lookupKey rest other
      rw [if_neg (fun hh => hne hh.symm), if_neg (fun hh => hne hh.symm), ih]
    · show lookupKey ((if k = key then (key, w) else (k, u)) :: updateKey rest key w) other =
        lookupKey ((k, u) :: rest) other
      rw [if_neg hp]
      show (if k = other then some u else lookupKey (updateKey rest key w) other) =
        if k = other then some u else lookupKey rest other
      rw [ih]

/-! ## Lemmas about hexadecimal rendering -/

theorem hexCharsF_fuel_irrel : ∀ (f₁ n : Nat), n < f₁ → ∀ f₂, n < f₂ →
    hexCharsF f₁ n = hexCharsF f₂ n := by
  intro f₁
  induction f₁ with
  | zero => intro n h; omega
  | succ f ih =>
    intro n h f₂ h₂
    match f₂, h₂ with
    | g + 1, h₂ =>
      simp only [hexCharsF]
      by_cases h16 : n < 16
      · simp [h16]
      · have hdiv : n / 16 < n := Nat.div_lt_self (by omega) (by omega)
        rw [if_neg h16, if_neg h16, ih (n / 16) (by omega) g (by omega)]

theorem hexChars_eq (n : Nat) : hexChars n =
    if n < 16 then [hexDigitUpper n] else hexChars (n / 16) ++ [hexDigitUpper (n % 16)] := by
  by_cases h16 : n < 16
  · simp [hexChars, hexCharsF, h16]
  · rw [if_neg h16]
    show hexCharsF (n + 1) n = hexCharsF (n / 16 + 1) (n / 16) ++ [hexDigitUpper (n % 16)]
    have hstep : hexCharsF (n + 1) n = hexCharsF n (n / 16) ++ [hexDigitUpper (n % 16)] := by
      simp [hexCharsF, h16]
    have hdiv : n / 16 < n := Nat.div_lt_self (by omega) (by omega)
    rw [hstep, hexCharsF_fuel_irrel n (n / 16) (by omega) (n / 16 + 1) (by omega)]

theorem hexChars_length_le : ∀ (k n : Nat), 0 < k → n < 16 ^ k →
    (hexChars n).length ≤ k := by
  intro k
  induction k with
  | zero => intro n h; omega
  | succ k ih =>
    intro n _ hn
    rw [hexChars_eq]
    by_cases h16 : n < 16
    · simp [h16]
    · rw [if_neg h16]
      have hk : 0 < k := by
        by_contra hk0
        have : k = 0 := by omega
        subst this
        simp [pow_succ, pow_zero] at hn
        omega
      have hdiv : n / 16 < 16 ^ k := by
        rw [Nat.div_lt_iff_lt_mul (by omega)]
        calc n < 16 ^ (k + 1) := hn
          _ = 16 ^ k * 16 := by rw [pow_succ]
      have := ih (n / 16) hk hdiv
      simp only [List.length_append, List.length_cons, List.length_nil]
      omega

theorem hexChars_all_upper : ∀ n : Nat, (hexChars n).all isHexDigitUpper = true := by
  have base : ∀ m, m < 16 → isHexDigitUpper (hexDigitUpper m) = true := by decide
  intro n
  induction n using Nat.strong_induction_on with
  | _ n ih =>
    rw [hexChars_eq]
    by_cases h16 : n < 16
    · simp [h16, base n h16]
    · have hdiv : n / 16 < n := Nat.div_lt_self (by omega) (by omega)
      rw [if_neg h16, List.all_append]
      simp [ih (n / 16) hdiv, base (n % 16) (Nat.mod_lt n (by omega))]

theorem data_hex08 (n : Nat) :
    (hex08 n).data = Char.ofNat 48 :: Char.ofNat 120 :: (pad8 (hexStr n)).data := by
  simp [hex08, String.data_append]

theorem hex08_ne_empty (n : Nat) : hex08 n ≠ "" := by
  intro h
  have := congrArg String.data h
  rw [data_hex08] at this
  simp at this

theorem hex08_length (n : Nat) (h : n < 4294967296) : (hex08 n).length = 10 := by
  have hpow : (16 : Nat) ^ 8 = 4294967296 := by norm_num
  have hlen : (hexChars n).length ≤ 8 :=
    hexChars_length_le 8 n (by omega) (by rw [hpow]; exact h)
  have hL : (hex08 n).length = (hex08 n).data.length := rfl
  rw [hL, data_hex08]
  have hpd : (pad8 (hexStr n)).data =
      List.replicate (8 - (hexChars n).length) (Char.ofNat 48) ++ hexChars n := by
    simp [pad8, hexStr, String.data_append, String.length]
  rw [hpd]
  simp only [List.length_cons, List.length_append, List.length_replicate]
  omega

theorem joinSep_hex08_cons_ne_empty (sep : String) (o : Nat) (l : List Nat) :
    joinSep sep ((o :: l).map hex08) ≠ "" := by
  cases l with
  | nil => simpa [joinSep] using hex08_ne_empty o
  | cons o₂ l₂ =>
    intro h
    have := congrArg String.data h
    rw [List.map_cons, List.map_cons, joinSep, String.data_append, String.data_append,
      data_hex08] at this
    simp at this

theorem describe_unfold (a : MemoryAddress) :
    a.describe = hex08 a.base ++
      (if a.offsets = [] then "" else " -> " ++ joinSep " -> " (a.offsets.map hex08)) := by
  unfold MemoryAddress.describe
  cases ho : a.offsets with
  | nil => simp [joinSep]
  | cons o l =>
    have hne := joinSep_hex08_cons_ne_empty " -> " o l
    simp only [List.map_cons] at hne
    simp [hne]

/-! ## Claim theorems -/

/-- C1: toggling a registered feature unconditionally flips its `enabled`
boolean and invokes the bound callback exactly once with the registry
process handle, the active profile and the new enabled state, before the
call returns. -/
theorem toggle_flips_and_invokes_once {α : Type} (m : CheatManager α) (identifier : String)
    (f : CheatFeature α) (h : lookupKey m.features identifier = some f) :
    lookupKey (m.toggle identifier).1.features identifier =
      some { f with enabled := !f.enabled } ∧
    invocationsOf (m.toggle identifier).2 =
      [(f.callback, m.process, m.config, !f.enabled)] := by
  have ht : m.toggle identifier =
      ({ m with features := updateKey m.features identifier { f with enabled := !f.enabled } },
       [ToggleEvent.logInfo f.label (!f.enabled),
        ToggleEvent.invoke f.callback m.process m.config (!f.enabled)]) := by
    unfold CheatManager.toggle
    rw [h]
    rfl
  rw [ht]
  exact ⟨lookupKey_updateKey_self m.features identifier f _ h, rfl⟩

/-- Witness for C1 on the freshly built v1 registry. -/
theorem toggle_flips_and_invokes_once_witness :
    lookupKey (sampleManager.toggle "soap").1.features "soap" =
      some { identifier := "soap", label := "Infinite Soap",
             callback := CallbackId.soap, enabled := true } ∧
    invocationsOf (sampleManager.toggle "soap").2 =
      [(CallbackId.soap, sampleManager.process, sampleManager.config, true)] :=
  toggle_flips_and_invokes_once sampleManager "soap"
    { identifier := "soap", label := "Infinite Soap",
      callback := CallbackId.soap, enabled := false } (by decide)

/-- C2 (counterexample): the enabled flag is assigned before the callback
runs, so when the callback raises, the feature does not keep its prior
value — starting from `enabled = false`, a failing toggle leaves
`enabled = true`. -/
theorem toggle_callback_failure_keeps_flip :
    (CheatFeature.toggleRun
      ({ identifier := "soap", label := "Infinite Soap",
         callback := CallbackId.soap, enabled := false } : CheatFeature CallbackId)
      (fun _ _ => (Except.error "boom" : Except String Unit))).2 = some "boom" ∧
    (CheatFeature.toggleRun
      ({ identifier := "soap", label := "Infinite Soap",
         callback := CallbackId.soap, enabled := false } : CheatFeature CallbackId)
      (fun _ _ => (Except.error "boom" : Except String Unit))).1.enabled = true :=
  ⟨rfl, rfl⟩

/-- C2 (amended): when the callback raises during a toggle, the exception
propagates but `enabled` — flipped before the callback was invoked — keeps
the new, negated value; there is no rollback to the prior state. -/
theorem toggleRun_flip_precedes_callback {α ε : Type} (f : CheatFeature α)
    (interp : α → Bool → Except ε Unit) (e : ε)
    (h : interp f.callback (!f.enabled) = .error e) :
    (f.toggleRun interp).1.enabled = !f.enabled ∧ (f.toggleRun interp).2 = some e := by
  have ht : f.toggleRun interp = ({ f with enabled := !f.enabled }, some e) := by
    unfold CheatFeature.toggleRun
    rw [h]
  rw [ht]
  exact ⟨rfl, rfl⟩

/-- Witness for the amended C2 at a concrete feature and failing callback. -/
theorem toggleRun_flip_precedes_callback_witness :
    ((fun _ _ => (Except.error "boom" : Except String Unit)) CallbackId.soap (!false) =
      Except.error "boom") ∧
    ((CheatFeature.toggleRun
        ({ identifier := "soap", label := "Infinite Soap",
           callback := CallbackId.soap, enabled := false } : CheatFeature CallbackId)
        (fun _ _ => (Except.error "boom" : Except String Unit))).1.enabled = !false ∧
      (CheatFeature.toggleRun
        ({ identifier := "soap", label := "Infinite Soap",
           callback := CallbackId.soap, enabled := false } : CheatFeature CallbackId)
        (fun _ _ => (Except.error "boom" : Except String Unit))).2 = some "boom") :=
  ⟨rfl, toggleRun_flip_precedes_callback
    { identifier := "soap", label := "Infinite Soap",
      callback := CallbackId.soap, enabled := false }
    (fun _ _ => (Except.error "boom" : Except String Unit)) "boom" rfl⟩

/-- C3: toggling the same registered feature twice restores the feature —
including its `enabled` flag — to its original value, and invokes the
bound callback exactly twice, once with each boolean state, in the order
determined by the starting state. -/
theorem toggle_twice_restores {α : Type} (m : CheatManager α) (identifier : String)
    (f : CheatFeature α) (h : lookupKey m.features identifier = some f) :
    lookupKey ((m.toggle identifier).1.toggle identifier).1.features identifier = some f ∧
    invocationsOf ((m.toggle identifier).2 ++ ((m.toggle identifier).1.toggle identifier).2) =
      [(f.callback, m.process, m.config, !f.enabled),
       (f.callback, m.process, m.config, f.enabled)] ∧
    (!f.enabled) ≠ f.enabled := by
  have ht1 : m.toggle identifier =
      (CheatManager.mk m.process m.config
        (updateKey m.features identifier { f with enabled := !f.enabled }),
       [ToggleEvent.logInfo f.label (!f.enabled),
        ToggleEvent.invoke f.callback m.process m.config (!f.enabled)]) := by
    unfold CheatManager.toggle
    rw [h]
    rfl
  have h₁ : lookupKey (updateKey m.features identifier { f with enabled := !f.enabled })
      identifier = some { f with enabled := !f.enabled } :=
    lookupKey_updateKey_self m.features identifier f _ h
  have hff : ({ f with enabled := !(!f.enabled) } : CheatFeature α) = f := by
    rw [Bool.not_not]
  have ht2 : (CheatManager.mk m.process m.config
        (updateKey m.features identifier { f with enabled := !f.enabled })).toggle identifier =
      (CheatManager.mk m.process m.config
        (updateKey (updateKey m.features identifier { f with enabled := !f.enabled })
          identifier { f with enabled := !(!f.enabled) }),
       [ToggleEvent.logInfo f.label (!(!f.enabled)),
        ToggleEvent.invoke f.callback m.process m.config (!(!f.enabled))]) := by
    unfold CheatManager.toggle
    rw [h₁]
    rfl
  rw [ht1, ht2]
  refine ⟨?_, ?_, ?_⟩
  · rw [hff]
    exact lookupKey_updateKey_self _ identifier { f with enabled := !f.enabled } f h₁
  · simp [invocationsOf, Bool.not_not]
  · cases hb : f.enabled <;> simp

/-- Witness for C3 on the freshly built v1 registry. -/
theorem toggle_twice_restores_witness :
    lookupKey ((sampleManager.toggle "flight").1.toggle "flight").1.features "flight" =
      some { identifier := "flight", label := "Flight",
             callback := CallbackId.flight, enabled := false } ∧
    invocationsOf ((sampleManager.toggle "flight").2 ++
        ((sampleManager.toggle "flight").1.toggle "flight").2) =
      [(CallbackId.flight, sampleManager.process, sampleManager.config, true),
       (CallbackId.flight, sampleManager.process, sampleManager.config, false)] ∧
    (true : Bool) ≠ false :=
  toggle_twice_restores sampleManager "flight"
    { identifier := "flight", label := "Flight",
      callback := CallbackId.flight, enabled := false } (by decide)

/-- C4: toggling an identifier that is not registered reports exactly one
error, leaves the whole registry (hence every feature state) unchanged,
and invokes no callback. -/
theorem toggle_unknown_identifier {α : Type} (m : CheatManager α) (identifier : String)
    (h : lookupKey m.features identifier = none) :
    (m.toggle identifier).1 = m ∧
    (m.toggle identifier).2 =
      [ToggleEvent.logError ("Unknown cheat " ++ apos ++ identifier ++ apos)] ∧
    errorsOf (m.toggle identifier).2 =
      ["Unknown cheat " ++ apos ++ identifier ++ apos] ∧
    invocationsOf (m.toggle identifier).2 = [] := by
  have ht : m.toggle identifier =
      (m, [ToggleEvent.logError ("Unknown cheat " ++ apos ++ identifier ++ apos)]) := by
    unfold CheatManager.toggle
    rw [h]
  rw [ht]
  exact ⟨rfl, rfl, rfl, rfl⟩

/-- Witness for C4: an unregistered identifier on the built v1 registry. -/
theorem toggle_unknown_identifier_witness :
    (sampleManager.toggle "turbo").1 = sampleManager ∧
    (sampleManager.toggle "turbo").2 =
      [ToggleEvent.logError ("Unknown cheat " ++ apos ++ "turbo" ++ apos)] ∧
    errorsOf (sampleManager.toggle "turbo").2 =
      ["Unknown cheat " ++ apos ++ "turbo" ++ apos] ∧
    invocationsOf (sampleManager.toggle "turbo").2 = [] :=
  toggle_unknown_identifier sampleManager "turbo" (by decide)

/-- C5: a version whose lower-cased form is a supported key returns exactly
the statically defined profile for that key; any other input fails with an
error naming the input, never a default profile. -/
theorem get_game_config_spec (version : String) :
    (pyLower version = "v1" → get_game_config version = .ok PWS_V1_CONFIG) ∧
    (pyLower version = "v2" → get_game_config version = .ok PWS_V2_CONFIG) ∧
    (pyLower version ≠ "v1" → pyLower version ≠ "v2" →
      get_game_config version =
        .error ("Unsupported game version " ++ apos ++ version ++ apos ++ ".")) := by
  refine ⟨fun h1 => ?_, fun h2 => ?_, fun h1 h2 => ?_⟩
  · show (match lookupKey SUPPORTED_GAMES (pyLower version) with
      | some config => Except.ok config
      | none => Except.error
          ("Unsupported game version " ++ apos ++ version ++ apos ++ ".")) =
      Except.ok PWS_V1_CONFIG
    rw [h1]
    rfl
  · show (match lookupKey SUPPORTED_GAMES (pyLower version) with
      | some config => Except.ok config
      | none => Except.error
          ("Unsupported game version " ++ apos ++ version ++ apos ++ ".")) =
      Except.ok PWS_V2_CONFIG
    rw [h2]
    rfl
  · have hl : lookupKey SUPPORTED_GAMES (pyLower version) = none := by
      show (if "v1" = pyLower version then some PWS_V1_CONFIG
        else if "v2" = pyLower version then some PWS_V2_CONFIG else none) = none
      rw [if_neg (fun hh => h1 hh.symm), if_neg (fun hh => h2 hh.symm)]
    show (match lookupKey SUPPORTED_GAMES (pyLower version) with
      | some config => Except.ok config
      | none => Except.error
          ("Unsupported game version " ++ apos ++ version ++ apos ++ ".")) =
      Except.error ("Unsupported game version " ++ apos ++ version ++ apos ++ ".")
    rw [hl]

/-- Witness for C5: a supported key reached case-insensitively and an
unsupported key. -/
theorem get_game_config_spec_witness :
    (pyLower "V1" = "v1" ∧ get_game_config "V1" = .ok PWS_V1_CONFIG) ∧
    (pyLower "v3" ≠ "v1" ∧ pyLower "v3" ≠ "v2" ∧
      get_game_config "v3" =
        .error ("Unsupported game version " ++ apos ++ "v3" ++ apos ++ ".")) :=
  ⟨⟨by decide, (get_game_config_spec "V1").1 (by decide)⟩,
   ⟨by decide, by decide, (get_game_config_spec "v3").2.2 (by decide) (by decide)⟩⟩

/-- C6 (counterexample): the base is rendered with Python format `08X`,
which zero-pads to a minimum width of 8 but is not fixed-width — a base of
`2 ^ 32` renders with nine hex digits, so the empty-offsets rendering is
not `0x` followed by exactly 8 digits (length 10). -/
theorem describe_not_fixed_width :
    (MemoryAddress.mk 4294967296 []).describe = "0x100000000" ∧
    ¬ ("0x100000000" : String).length = 10 := by
  exact ⟨rfl, by decide⟩

/-- C6 (amended): `describe` renders the base as `0x` followed by
zero-padded upper-case hex digits of minimum width 8 — exactly 8 digits
whenever the base fits in 32 bits — and appends the `" -> "`-joined,
identically formatted offsets iff `offsets` is non-empty; with no offsets
the result is the base rendering alone. -/
theorem describe_renders_hex_chain (a : MemoryAddress) (hb : a.base < 4294967296) :
    a.describe = hex08 a.base ++
      (if a.offsets = [] then "" else " -> " ++ joinSep " -> " (a.offsets.map hex08)) ∧
    (hex08 a.base).length = 10 ∧
    (hexChars a.base).all isHexDigitUpper = true ∧
    (a.offsets = [] → a.describe = hex08 a.base) := by
  refine ⟨describe_unfold a, hex08_length a.base hb, hexChars_all_upper a.base, fun h0 => ?_⟩
  rw [describe_unfold a, if_pos h0]
  exact String.append_empty _

/-- Witness for the amended C6 at a concrete one-offset address. -/
theorem describe_renders_hex_chain_witness :
    (MemoryAddress.mk 255 [16]).base < 4294967296 ∧
    ((MemoryAddress.mk 255 [16]).describe = hex08 (MemoryAddress.mk 255 [16]).base ++
      (if (MemoryAddress.mk 255 [16]).offsets = [] then ""
       else " -> " ++ joinSep " -> " ((MemoryAddress.mk 255 [16]).offsets.map hex08)) ∧
     (hex08 (MemoryAddress.mk 255 [16]).base).length = 10 ∧
     (hexChars (MemoryAddress.mk 255 [16]).base).all isHexDigitUpper = true ∧
     ((MemoryAddress.mk 255 [16]).offsets = [] →
       (MemoryAddress.mk 255 [16]).describe = hex08 (MemoryAddress.mk 255 [16]).base)) :=
  ⟨by decide, describe_renders_hex_chain (MemoryAddress.mk 255 [16]) (by decide)⟩

/-- C7: a successfully built registry contains exactly the four features
`soap`, `instant_clean`, `flight`, `dirt_esp`, in registration order, each
with its `CHEAT_NAMES` label, its callback, and `enabled = false`. -/
theorem build_manager_initial_registry (psutilAvailable : Bool)
    (running : List (Nat × String)) (config : GameConfig) (m : CheatManager CallbackId)
    (h : build_manager psutilAvailable running config = .ok m) :
    m.features.map (fun p => (p.1, p.2.identifier, p.2.label, p.2.callback)) =
      [("soap", "soap", "Infinite Soap", CallbackId.soap),
       ("instant_clean", "instant_clean", "Instant Clean", CallbackId.instantClean),
       ("flight", "flight", "Flight", CallbackId.flight),
       ("dirt_esp", "dirt_esp", "Dirt ESP", CallbackId.dirtEsp)] ∧
    ∀ p ∈ m.features, p.2.enabled = false := by
  cases ha : attach_to_process psutilAvailable running config with
  | error e =>
    unfold build_manager at h
    rw [ha] at h
    simp [Except.map] at h
  | ok process =>
    unfold build_manager at h
    rw [ha] at h
    simp only [Except.map, Except.ok.injEq] at h
    subst h
    constructor
    · rfl
    · intro p hp
      have hfeat : (buildManagerFrom process config).features =
          [("soap", CheatFeature.mk "soap" "Infinite Soap" CallbackId.soap false),
           ("instant_clean", CheatFeature.mk "instant_clean" "Instant Clean" CallbackId.instantClean false),
           ("flight", CheatFeature.mk "flight" "Flight" CallbackId.flight false),
           ("dirt_esp", CheatFeature.mk "dirt_esp" "Dirt ESP" CallbackId.dirtEsp false)] := rfl
      rw [hfeat] at hp
      fin_cases hp <;> rfl

/-- Witness for C7: building against a process table containing the v1
executable. -/
theorem build_manager_initial_registry_witness :
    build_manager true [(1234, "PowerWashSimulator.exe")] PWS_V1_CONFIG =
      .ok sampleManager ∧
    (sampleManager.features.map (fun p => (p.1, p.2.identifier, p.2.label, p.2.callback)) =
      [("soap", "soap", "Infinite Soap", CallbackId.soap),
       ("instant_clean", "instant_clean", "Instant Clean", CallbackId.instantClean),
       ("flight", "flight", "Flight", CallbackId.flight),
       ("dirt_esp", "dirt_esp", "Dirt ESP", CallbackId.dirtEsp)] ∧
     ∀ p ∈ sampleManager.features, p.2.enabled = false) :=
  ⟨rfl,
   build_manager_initial_registry true [(1234, "PowerWashSimulator.exe")] PWS_V1_CONFIG
     sampleManager rfl⟩

/-- C8 (counterexample): invoking the program with unsupported game version
`v3` makes argparse reject the value and the process exits with status 2,
not 1 as claimed. -/
theorem main_unsupported_version_exits_2 :
    main "v3" true [(1, "PowerWashSimulator.exe")] ["q"] = some 2 ∧ (2 : Nat) ≠ 1 :=
  ⟨rfl, by decide⟩

/-- C8 (amended): an unsupported game version is rejected by argparse
`choices` validation before `get_game_config` runs, and the process exits
with status 2 (the in-`main` `ConfigurationError` handler returning 1 is
unreachable from the command line); a normal quit exits with status 0. -/
theorem main_exit_codes (gameVersionArg : String) (psutilAvailable : Bool)
    (running : List (Nat × String)) (inputs : List String) :
    (gameVersionArg ∉ argparseChoices →
      main gameVersionArg psutilAvailable running inputs = some 2) ∧
    main "v1" true [(1234, "PowerWashSimulator.exe")] ("q" :: inputs) = some 0 := by
  constructor
  · intro h
    have hp : parse_args gameVersionArg = none := by
      unfold parse_args
      rw [if_neg h]
    unfold main
    rw [hp]
  · show (match run_menu sampleManager ("q" :: inputs) with
      | none => (none : Option Nat)
      | some _ => some 0) = some 0
    rfl

/-- Witness for the amended C8 at version `v3` and a quit input. -/
theorem main_exit_codes_witness :
    ("v3" ∉ argparseChoices ∧ main "v3" true [] [] = some 2) ∧
    main "v1" true [(1234, "PowerWashSimulator.exe")] ("q" :: ([] : List String)) = some 0 :=
  ⟨⟨by decide, (main_exit_codes "v3" true [] []).1 (by decide)⟩,
   (main_exit_codes "v3" true [] []).2⟩

/-- C9 (counterexample): when psutil is unavailable, attachment fails with
the same exception class `ProcessNotFoundError` that a missing process
produces — not a distinct `DependencyUnavailable` kind. -/
theorem find_process_missing_psutil_same_kind :
    exceptKind (find_process_by_name false [] "PowerWashSimulator.exe") =
      some "ProcessNotFoundError" ∧
    exceptKind (find_process_by_name true [] "PowerWashSimulator.exe") =
      some "ProcessNotFoundError" ∧
    some "ProcessNotFoundError" ≠ some "DependencyUnavailable" :=
  ⟨rfl, rfl, by decide⟩

/-- C9 (amended): `find_process_by_name` raises `ProcessNotFoundError` when
no running process matches the name, and raises the same
`ProcessNotFoundError` class — with an install-remediation message rather
than a distinct `DependencyUnavailable` kind — when psutil is missing. -/
theorem find_process_error_kinds (running : List (Nat × String)) (process_name : String) :
    find_process_by_name false running process_name =
      .error { kind := "ProcessNotFoundError", msg := psutilMissingMsg } ∧
    (running.find? (fun p => p.2 = process_name) = none →
      find_process_by_name true running process_name =
        .error { kind := "ProcessNotFoundError", msg := processMissingMsg process_name }) := by
  constructor
  · rfl
  · intro h
    unfold find_process_by_name
    rw [h]
    rfl

/-- Witness for the amended C9: empty process table. -/
theorem find_process_error_kinds_witness :
    find_process_by_name false [] "PowerWashSimulator2.exe" =
      .error { kind := "ProcessNotFoundError", msg := psutilMissingMsg } ∧
    (([] : List (Nat × String)).find? (fun p => p.2 = "PowerWashSimulator2.exe") = none ∧
      find_process_by_name true [] "PowerWashSimulator2.exe" =
        .error { kind := "ProcessNotFoundError",
                 msg := processMissingMsg "PowerWashSimulator2.exe" }) :=
  ⟨(find_process_error_kinds [] "PowerWashSimulator2.exe").1,
   ⟨by decide, (find_process_error_kinds [] "PowerWashSimulator2.exe").2 (by decide)⟩⟩

/-- C10: for both supported profiles, every profile key looked up by the
four registered callbacks is present in the profile mapping, so no
callback mapping lookup can fail under these profiles. -/
theorem profile_keys_support_callbacks (process : AttachedProcess) (enabled : Bool) :
    (toggle_infinite_soap process PWS_V1_CONFIG enabled).isSome = true ∧
    (toggle_instant_clean process PWS_V1_CONFIG enabled).isSome = true ∧
    (toggle_flight process PWS_V1_CONFIG enabled).isSome = true ∧
    (toggle_dirt_esp process PWS_V1_CONFIG enabled).isSome = true ∧
    (toggle_infinite_soap process PWS_V2_CONFIG enabled).isSome = true ∧
    (toggle_instant_clean process PWS_V2_CONFIG enabled).isSome = true ∧
    (toggle_flight process PWS_V2_CONFIG enabled).isSome = true ∧
    (toggle_dirt_esp process PWS_V2_CONFIG enabled).isSome = true :=
  ⟨rfl, rfl, rfl, rfl, rfl, rfl, rfl, rfl⟩

end PWS2
